import Mathlib

/-!
# Verification of the WhisperX Docker orchestrator

A shallow embedding of `whisperx_diarization.py` (the external
transcription-job orchestrator): the configuration store, the readiness
checker, the worker-invocation builder, the per-file supervision loop, the
phase classifier, the batch coordinator and the CLI driver's exit logic.
Each definition is translated directly from the corresponding place in the
source file; theorems below settle the specification's claims against them.
-/

namespace WhisperX

/-! ## Basic string helpers

The Python source manipulates strings with `strip`, `lower`, `split`,
`startswith` and the `in` (substring) operator.  We model strings through
their character lists with small executable helpers mirroring those
operations on the ASCII inputs the orchestrator deals with. -/

/-- `startsWithList l p` holds when `p` is an initial segment of `l`
(Python `str.startswith` on character lists). -/
def startsWithList : List Char → List Char → Bool
  | _, [] => true
  | [], _ :: _ => false
  | c :: cs, p :: ps => c == p && startsWithList cs ps

/-- `hasSub l pat`: `pat` occurs contiguously inside `l`
(Python's `pat in line` substring test). -/
def hasSub : List Char → List Char → Bool
  | [], pat => pat.isEmpty
  | c :: cs, pat => startsWithList (c :: cs) pat || hasSub cs pat

/-- `containsSub line pat`: substring test on strings (Python `pat in line`). -/
def containsSub (line pat : String) : Bool :=
  hasSub line.toList pat.toList

/-- Remove leading and trailing characters satisfying `p`
(Python `str.strip(chars)` with `p` the membership test of the strip set). -/
def stripSet (p : Char → Bool) (s : String) : String :=
  ⟨((s.toList.dropWhile p).reverse.dropWhile p).reverse⟩

/-- Python `str.strip()` with no argument: trim whitespace on both sides. -/
def pyStrip (s : String) : String :=
  stripSet Char.isWhitespace s

/-- Python `str.lower()` restricted to ASCII, as used on config values. -/
def lowerStr (s : String) : String :=
  ⟨s.toList.map Char.toLower⟩

/-- Decimal value of a digit list (Python `int(...)` on an all-digit string). -/
def decNat (l : List Char) : Nat :=
  l.foldl (fun a c => a * 10 + (c.toNat - 48)) 0

/-! ## Phase classifier

`process_file` (source lines 312–327) reads the worker's diagnostic stream
line by line and sets a status label through an `if/elif` chain:

```
if "Performing VAD" in line or "voice activity detection" in line:
    current_status = "1/4 ..."        # speech detection
elif "Performing transcription" in line:
    current_status = "2/4 ..."        # transcription
elif "Performing alignment" in line:
    current_status = "3/4 ..."        # alignment
elif "Performing diarization" in line:
    current_status = "4/4 ..."        # diarization
```

The status labels are in bijection with the spec's `Phase` enumeration, so
we model the label as the `Phase` value it denotes. -/

/-- The spec's ordered phase enumeration.  The source's status strings map
onto the first five values; `Finalizing` is listed by the spec's order and
is never produced by the classifier. -/
inductive Phase
  | Initializing
  | DetectingSpeech
  | Transcribing
  | Aligning
  | Diarizing
  | Finalizing
deriving DecidableEq, Repr

/-- Position of a phase in the spec's fixed total order
`Initializing < DetectingSpeech < Transcribing < Aligning < Diarizing <
Finalizing`. -/
def phaseOrder : Phase → Nat
  | .Initializing => 0
  | .DetectingSpeech => 1
  | .Transcribing => 2
  | .Aligning => 3
  | .Diarizing => 4
  | .Finalizing => 5

/-- Maximum of two phases under the spec's fixed total order. -/
def phaseMax (p q : Phase) : Phase :=
  if phaseOrder p ≤ phaseOrder q then q else p

/-- One step of the source's `if/elif` chain: the new status after seeing
`line`, given the current status `current` (source lines 316–323).  Each
branch *assigns* the matched phase's label; the `else` case (no rule
matches) leaves the status unchanged. -/
def classify (current : Phase) (line : String) : Phase :=
  if containsSub line "Performing VAD" || containsSub line "voice activity detection" then
    .DetectingSpeech
  else if containsSub line "Performing transcription" then
    .Transcribing
  else if containsSub line "Performing alignment" then
    .Aligning
  else if containsSub line "Performing diarization" then
    .Diarizing
  else
    current

/-- The phase matched by the first matching rule of the chain, if any
(same rule list and priority as `classify`). -/
def matchedPhase (line : String) : Option Phase :=
  if containsSub line "Performing VAD" || containsSub line "voice activity detection" then
    some .DetectingSpeech
  else if containsSub line "Performing transcription" then
    some .Transcribing
  else if containsSub line "Performing alignment" then
    some .Aligning
  else if containsSub line "Performing diarization" then
    some .Diarizing
  else
    none

/-! ## Configuration store

`_load_config` (source lines 96–119) starts from a built-in default
dictionary, then — when the config file exists — parses it line by line:
a stripped line that is non-empty, does not start with `#` and contains
`=` is split at the first `=`; the stripped key is assigned the stripped,
quote-stripped value.  If reading raises, a warning is logged, the default
config file is written (`_create_default_config`) and the dictionary built
so far is returned; if the file is absent, the default file is written and
the built-in defaults are returned. -/

/-- A configuration dictionary: association list with at most one binding
per key (Python `dict` insertion semantics via `cfgSet`). -/
abbrev Config := List (String × String)

/-- The built-in default dictionary (source lines 98–103). -/
def defaultConfig : Config :=
  [("HF_TOKEN", ""), ("WHISPER_MODEL", "large-v3"), ("LANGUAGE", "ru"),
   ("BATCH_SIZE", "16"), ("DEVICE", "cuda"), ("ENABLE_DIARIZATION", "true"),
   ("MIN_SPEAKERS", ""), ("MAX_SPEAKERS", ""), ("COMPUTE_TYPE", "float16"),
   ("VAD_METHOD", "pyannote"), ("CHUNK_SIZE", "30")]

/-- Python `config[k] = v`: overwrite the binding if the key is present,
append it otherwise. -/
def cfgSet (cfg : Config) (k v : String) : Config :=
  if cfg.any (fun q => q.1 == k) then
    cfg.map (fun q => if q.1 == k then (k, v) else q)
  else
    cfg ++ [(k, v)]

/-- Python `config.get(k)`: the value bound to `k`, if any. -/
def cfgGet (cfg : Config) (k : String) : Option String :=
  (cfg.find? (fun q => q.1 == k)).map (fun q => q.2)

/-- Python `config.get(k, d)`: lookup with default. -/
def cfgGetD (cfg : Config) (k d : String) : String :=
  (cfgGet cfg k).getD d

/-- Membership test of Python's strip set `'"\''` (double or single quote). -/
def isQuoteChar (c : Char) : Bool :=
  c == '"' || c.toNat == 39

/-- Python `line.split('=', 1)`: the part before the first `=` and the
part after it. -/
def splitOnceEq (l : List Char) : List Char × List Char :=
  (l.takeWhile (fun c => c != '='), (l.dropWhile (fun c => c != '=')).drop 1)

/-- One iteration of the parse loop (source lines 107–111): strip the raw
line; if it is non-empty, not a comment and contains `=`, bind the
stripped key to the stripped, quote-stripped value; otherwise leave the
dictionary unchanged. -/
def applyConfigLine (cfg : Config) (raw : String) : Config :=
  let line := pyStrip raw
  if line != "" && !startsWithList line.toList ['#'] && line.toList.contains '=' then
    let kv := splitOnceEq line.toList
    cfgSet cfg (pyStrip ⟨kv.1⟩) (stripSet isQuoteChar (pyStrip ⟨kv.2⟩))
  else
    cfg

/-- Observable state of the backing configuration file.  `corrupt lines`
models a file whose read raises an exception (e.g. a byte-decoding error)
after yielding `lines`: in the source the `except` branch keeps every
dictionary assignment already made by earlier loop iterations, writes the
default config file, and the function returns the dictionary as built. -/
inductive ConfigFile
  | absent
  | readable (lines : List String)
  | corrupt (lines : List String)
deriving DecidableEq

/-- `_load_config` (source lines 96–119).  Returns the resulting
configuration together with a flag recording whether
`_create_default_config` wrote the default file to disk (it does exactly
when the file was absent or its read raised). -/
def loadConfig : ConfigFile → Config × Bool
  | .absent => (defaultConfig, true)
  | .readable lines => (lines.foldl applyConfigLine defaultConfig, false)
  | .corrupt lines => (lines.foldl applyConfigLine defaultConfig, true)

/-- The recognized configuration keys (the claim's canonical key set). -/
def recognizedKeys : List String :=
  ["HF_TOKEN", "WHISPER_MODEL", "LANGUAGE", "BATCH_SIZE", "DEVICE",
   "ENABLE_DIARIZATION", "MIN_SPEAKERS", "MAX_SPEAKERS", "COMPUTE_TYPE",
   "VAD_METHOD", "CHUNK_SIZE"]

/-! ## Readiness checker

`check_system` (source lines 391–428) runs, in order: the Docker probe
(`docker --version`), the GPU probe when `DEVICE == 'cuda'` (on failure it
downgrades `use_gpu` and `config['DEVICE']` to CPU with a warning instead
of failing), the worker-image probe, the diarization-credential check, the
ffprobe availability check (warning only) and the cache write probe.  Each
external probe either succeeds or fails; we record their outcomes in a
record and express `check_system` as a function of the configuration and
those outcomes. -/

/-- Outcomes of the external probes run by `check_system`. -/
structure SysProbe where
  dockerOk : Bool
  gpuOk : Bool
  imageOk : Bool
  ffprobeOk : Bool
  cacheWritable : Bool
deriving DecidableEq

/-- Result of `check_system`: the returned boolean, plus the value of
`config['DEVICE']` after the call (the only configuration mutation the
checker may perform is the GPU → CPU downgrade). -/
structure CheckOutcome where
  ready : Bool
  device : String
deriving DecidableEq

/-- The credential check's failing condition (source lines 409–411):
diarization enabled and the stripped token empty or the placeholder. -/
def tokenBlocked (cfg : Config) : Bool :=
  lowerStr (cfgGetD cfg "ENABLE_DIARIZATION" "true") == "true" &&
    (pyStrip (cfgGetD cfg "HF_TOKEN" "") == "" ||
     pyStrip (cfgGetD cfg "HF_TOKEN" "") == "your_token_here")

/-- `check_system` (source lines 391–428).  `use_gpu` is
`config.get('DEVICE') == 'cuda'` as set in `__init__` (source line 93);
the ffprobe check only logs a warning, so `ffprobeOk` does not influence
the result. -/
def checkSystem (cfg : Config) (p : SysProbe) : CheckOutcome :=
  let useGpu := cfgGet cfg "DEVICE" == some "cuda"
  let device0 := cfgGetD cfg "DEVICE" ""
  if !p.dockerOk then ⟨false, device0⟩
  else
    let device1 := if useGpu && !p.gpuOk then "cpu" else device0
    if !p.imageOk then ⟨false, device1⟩
    else if tokenBlocked cfg then ⟨false, device1⟩
    else if !p.cacheWritable then ⟨false, device1⟩
    else ⟨true, device1⟩

/-! ## Job Runner: supervision loop

`process_file` launches the worker with `subprocess.Popen` and then runs
(source lines 312–332):

```
while process.poll() is None:
    line = process.stderr.readline()
    ...
    time.sleep(0.1)
process.wait()
```

There is no timeout check anywhere in the loop and `process_file` takes no
timeout argument.  We model the worker's observable exit behaviour as a
function `poll : Nat → Option Int` giving the exit status visible at the
i-th iteration (`none` = still running), and the loop as a fuel-indexed
iteration: `superviseSteps poll fuel i = some code` when the process exits
within `fuel` further iterations, `none` when the loop is still waiting
after `fuel` iterations (each iteration sleeps 0.1 s, so completing
"within T plus bounded overhead" entails completing within finitely many
iterations). -/

/-- The supervision loop of `process_file`, indexed by the number of
remaining polling iterations. -/
def superviseSteps (poll : Nat → Option Int) : Nat → Nat → Option Int
  | 0, _ => none
  | fuel + 1, i =>
    match poll i with
    | some code => some code
    | none => superviseSteps poll fuel (i + 1)

/-! ## Job Runner: result value

After the loop, `process_file` returns `True` when `process.returncode`
is `0` and `False` otherwise (source lines 334–356); any exception while
launching or supervising Docker is caught and `False` is returned as well
(source lines 358–360). -/

/-- How a `process_file` call's worker process can go: the launch itself
raised (missing executable, permission error), or the process ran and
exited with a status code. -/
inductive WorkerRun
  | launchFailure
  | exited (code : Int)
deriving DecidableEq

/-- The value returned by `process_file` for each worker outcome
(source lines 334, 347, 356, 360). -/
def processFileResult : WorkerRun → Bool
  | .launchFailure => false
  | .exited code => code == 0

/-! ## Job Runner: worker argument list

`process_file` builds `whisper_args` (source lines 269–290): fixed
output/model/language/batch/device/precision/format flags, then — when
diarization is enabled and a usable token is present — the diarization
flags, the token, and a min/max speaker flag for each configured value
that is a positive-integer numeral, and finally the input-file reference.
`str.isdigit`/`int` are modelled on the ASCII digits the orchestrator's
numeric settings use. -/

/-- `hf_token = self.config.get('HF_TOKEN', '').strip()` (source line 261). -/
def hfTokenOf (cfg : Config) : String :=
  pyStrip (cfgGetD cfg "HF_TOKEN" "")

/-- One iteration of the speaker-flag loop (source lines 282–285): emit
`[flag, value]` when the configured value is truthy, all digits and its
integer value is positive; nothing otherwise. -/
def speakerFlag (v : Option String) (flag : String) : List String :=
  match v with
  | none => []
  | some s =>
      if s != "" && s.toList.all Char.isDigit && decide (0 < decNat s.toList) then
        [flag, s]
      else
        []

/-- The unconditional part of `whisper_args` (source lines 269–278). -/
def baseArgs (cfg : Config) : List String :=
  ["--output_dir", "/results",
   "--model", cfgGetD cfg "WHISPER_MODEL" "large-v3",
   "--language", cfgGetD cfg "LANGUAGE" "ru",
   "--batch_size", cfgGetD cfg "BATCH_SIZE" "16",
   "--device", if cfgGet cfg "DEVICE" == some "cuda" then "cuda" else "cpu",
   "--compute_type", cfgGetD cfg "COMPUTE_TYPE" "float16",
   "--output_format", "all",
   "--verbose", "False"]

/-- The conditional diarization part of `whisper_args`
(source lines 280–285). -/
def diarExtension (cfg : Config) : List String :=
  if lowerStr (cfgGetD cfg "ENABLE_DIARIZATION" "true") == "true" &&
      hfTokenOf cfg != "" && hfTokenOf cfg != "your_token_here" then
    ["--diarize", "--hf_token", hfTokenOf cfg]
      ++ speakerFlag (cfgGet cfg "MIN_SPEAKERS") "--min_speakers"
      ++ speakerFlag (cfgGet cfg "MAX_SPEAKERS") "--max_speakers"
  else
    []

/-- The complete worker argument list (source lines 269–290): base flags,
diarization flags, then the input-file reference. -/
def whisperArgs (cfg : Config) (audioFileName : String) : List String :=
  baseArgs cfg ++ diarExtension cfg ++ ["/audio/" ++ audioFileName]

/-- Spec-side predicate: diarization is requested by the configuration. -/
def diarRequested (cfg : Config) : Prop :=
  lowerStr (cfgGetD cfg "ENABLE_DIARIZATION" "true") = "true"

/-- Spec-side predicate: a non-placeholder credential is present. -/
def credentialPresent (cfg : Config) : Prop :=
  hfTokenOf cfg ≠ "" ∧ hfTokenOf cfg ≠ "your_token_here"

/-- Spec-side predicate: the optional configured value is a string
denoting a positive integer (non-empty, all digits, value positive). -/
def denotesPosInt (v : Option String) : Prop :=
  ∃ s, v = some s ∧ s ≠ "" ∧ (∀ c ∈ s.toList, c.isDigit) ∧ 0 < decNat s.toList

/-- A configuration with diarization usable, used as a concrete witness
input. -/
def exampleDiarConfig : Config :=
  [("ENABLE_DIARIZATION", "true"), ("HF_TOKEN", "hf_abc"),
   ("MIN_SPEAKERS", "2"), ("MAX_SPEAKERS", "0")]

/-! ## Audio-duration probe

`_get_audio_duration` (source lines 217–229) returns `None` when
`ffprobe` is not on the path, when `_run_command` failed (command not
found, timeout, or non-zero exit — it returns `None` in those cases), when
the stripped stdout is empty, and when `float(...)` raises; otherwise the
parsed duration.  `process_file` computes the speed factor only under
`if duration and processing_time > 0` (source lines 338–340). -/

/-- Environment of one `_get_audio_duration` call: whether `ffprobe` is
on the path, and the probe command's captured stdout (`none` when
`_run_command` returned `None`). -/
structure DurationProbe where
  ffprobeOnPath : Bool
  runOutput : Option String
deriving DecidableEq

/-- Model of Python `float(...)` on the fixed-point decimal numerals
`ffprobe -show_entries format=duration` emits: optional sign, integer
digits, optional fractional digits; `none` when the string is not such a
numeral (the `ValueError` path). -/
def pyFloat (s : String) : Option ℚ :=
  let l := s.toList
  let signSplit : Bool × List Char :=
    match l with
    | '-' :: rest => (true, rest)
    | '+' :: rest => (false, rest)
    | _ => (false, l)
  let ip := signSplit.2.takeWhile Char.isDigit
  let rest := signSplit.2.dropWhile Char.isDigit
  let val : Option ℚ :=
    match rest with
    | [] => if ip.isEmpty then none else some (decNat ip)
    | '.' :: fp =>
        if fp.all Char.isDigit && !(ip.isEmpty && fp.isEmpty) then
          some ((decNat ip : ℚ) + (decNat fp : ℚ) / ((10 : ℚ) ^ fp.length))
        else
          none
    | _ => none
  match val with
  | none => none
  | some v => some (if signSplit.1 then -v else v)

/-- `_get_audio_duration` (source lines 217–229). -/
def getAudioDuration (p : DurationProbe) : Option ℚ :=
  if !p.ffprobeOnPath then none
  else
    match p.runOutput with
    | none => none
    | some out =>
        if pyStrip out != "" then pyFloat (pyStrip out) else none

/-- The per-file speed factor (source lines 338–340): computed only when
a duration was obtained, it is truthy (non-zero) and the processing time
is strictly positive; `none` means the log line is skipped. -/
def speedFactor (duration : Option ℚ) (processingTime : ℚ) : Option ℚ :=
  match duration with
  | none => none
  | some d =>
      if d ≠ 0 ∧ 0 < processingTime then some (d / processingTime) else none

/-! ## Batch coordinator

`process_directory` (source lines 362–389) returns early with only a
warning when no audio files were found; otherwise it initializes
`stats = {"total": N, "success": 0, "failed": 0}` and iterates over every
file, incrementing `success` or `failed` according to `process_file`'s
boolean result, then reports the aggregate.  We take as input the
sequence of per-file `process_file` outcomes, in file order. -/

/-- The aggregate counters of one batch run. -/
structure BatchStats where
  total : Nat
  success : Nat
  failed : Nat
deriving DecidableEq, Repr

/-- One iteration of the batch loop (source lines 373–378). -/
def batchStep (stats : BatchStats) (ok : Bool) : BatchStats :=
  match ok with
  | true => { stats with success := stats.success + 1 }
  | false => { stats with failed := stats.failed + 1 }

/-- `process_directory` over the per-file outcomes: `none` models the
early return (no aggregate) for an empty batch, `some stats` the reported
aggregate after the full loop. -/
def processDirectory (outcomes : List Bool) : Option BatchStats :=
  if outcomes.isEmpty then none
  else some (outcomes.foldl batchStep ⟨outcomes.length, 0, 0⟩)

/-! ## CLI driver exit status

`main` (source lines 431–468): with `--check` it calls `check_system`,
*discards its result* and returns (process exit status 0); otherwise a
failing `check_system` exits 1; a missing `--file` argument target exits
1; `KeyboardInterrupt` exits 130; any other unhandled exception exits 1;
normal completion of processing falls off `main` with exit status 0
(per-job results do not influence the exit status). -/

/-- The parsed command-line arguments relevant to the exit status. -/
structure CliArgs where
  file : Option String
  directory : Option String
  check : Bool
deriving DecidableEq

/-- How the guarded region of `main` ends: normally, by
`KeyboardInterrupt`, or by an unhandled exception. -/
inductive RunDisposition
  | normal
  | interrupted
  | crashed
deriving DecidableEq

/-- The process exit status of `main` (source lines 447–468) as a
function of the arguments, the readiness result, whether the `--file`
target exists, and how the guarded region ended. -/
def cliExitCode (args : CliArgs) (checkOk fileFound : Bool)
    (d : RunDisposition) : Nat :=
  match d with
  | .interrupted => 130
  | .crashed => 1
  | .normal =>
      if args.check then 0
      else if !checkOk then 1
      else
        match args.file with
        | some _ => if !fileFound then 1 else 0
        | none => 0

end WhisperX

namespace WhisperX

/-! ## Claim C1 — phase monotonicity -/

/-- **C1 counterexample.**  The claim states that when a rule matches,
`classify(currentPhase, line)` equals `max(currentPhase, matchedPhase)`,
so the phase never regresses.  At current phase `Diarizing`, the line
`"Performing transcription"` matches the `Transcribing` rule, and the
classifier returns `Transcribing` — strictly earlier than `Diarizing` and
different from `max(Diarizing, Transcribing) = Diarizing`.  The phase
regresses. -/
theorem classify_not_max_cex :
    matchedPhase "Performing transcription" = some Phase.Transcribing ∧
    classify Phase.Diarizing "Performing transcription" = Phase.Transcribing ∧
    classify Phase.Diarizing "Performing transcription" ≠
      phaseMax Phase.Diarizing Phase.Transcribing ∧
    phaseOrder (classify Phase.Diarizing "Performing transcription") <
      phaseOrder Phase.Diarizing := by
  decide

/-- **C1 amended.**  When some rule matches the line, `classify` returns
the matched phase itself — not the maximum of it and the current phase, so
a line matching an earlier phase makes the phase regress; when no rule
matches, the current phase is returned unchanged. -/
theorem classify_eq_matched_or_current (current : Phase) (line : String) :
    classify current line = (matchedPhase line).getD current := by
  unfold classify matchedPhase
  cases h1 : containsSub line "Performing VAD" || containsSub line "voice activity detection" <;>
    cases h2 : containsSub line "Performing transcription" <;>
      cases h3 : containsSub line "Performing alignment" <;>
        cases h4 : containsSub line "Performing diarization" <;>
          simp [h1, h2, h3, h4]

/-! ## Claim C5 — configuration loading -/

/-- A key bound in `cfg` is still bound after any assignment. -/
theorem cfgGet_cfgSet_isSome (cfg : Config) (k' v k : String)
    (h : (cfgGet cfg k).isSome) : (cfgGet (cfgSet cfg k' v) k).isSome := by
  rw [cfgGet, Option.isSome_map', List.find?_isSome] at h ⊢
  obtain ⟨p, hp, hpk⟩ := h
  unfold cfgSet
  split
  · refine ⟨if p.1 == k' then (k', v) else p, List.mem_map_of_mem _ hp, ?_⟩
    by_cases hk' : p.1 = k'
    · simp only [hk', beq_self_eq_true, if_true]
      have : k' = k := by rw [← hk']; exact eq_of_beq hpk
      simp [this]
    · simp only [beq_eq_false_iff_ne.2 hk', if_false]
      exact hpk
  · exact ⟨p, List.mem_append_left _ hp, hpk⟩

/-- A key bound before a parse-loop iteration is still bound after it. -/
theorem cfgGet_applyConfigLine_isSome (cfg : Config) (raw k : String)
    (h : (cfgGet cfg k).isSome) :
    (cfgGet (applyConfigLine cfg raw) k).isSome := by
  simp only [applyConfigLine]
  split
  · exact cfgGet_cfgSet_isSome _ _ _ _ h
  · exact h

/-- A key bound before the parse loop is still bound after any sequence of
iterations. -/
theorem cfgGet_foldl_isSome (lines : List String) (cfg : Config) (k : String)
    (h : (cfgGet cfg k).isSome) :
    (cfgGet (lines.foldl applyConfigLine cfg) k).isSome := by
  induction lines generalizing cfg with
  | nil => exact h
  | cons l ls ih =>
      exact ih _ (cfgGet_applyConfigLine_isSome _ _ _ h)

/-- Every recognized key is bound in the built-in default dictionary. -/
theorem defaultConfig_has_recognized (k : String) (hk : k ∈ recognizedKeys) :
    (cfgGet defaultConfig k).isSome := by
  simp only [recognizedKeys, List.mem_cons, List.not_mem_nil, or_false] at hk
  rcases hk with rfl|rfl|rfl|rfl|rfl|rfl|rfl|rfl|rfl|rfl|rfl <;> decide

/-- **C5 counterexample.**  The claim states that when the configuration
file is malformed, `load` writes the default file *and proceeds with
built-in defaults for the current call*.  For a file whose read raises
after the valid line `DEVICE=cpu` has been parsed, the default file is
written but the current call proceeds with `DEVICE = "cpu"`, not the
built-in default `"cuda"`: assignments made before the error persist. -/
theorem loadConfig_malformed_not_defaults_cex :
    (loadConfig (ConfigFile.corrupt ["DEVICE=cpu"])).2 = true ∧
    cfgGet (loadConfig (ConfigFile.corrupt ["DEVICE=cpu"])).1 "DEVICE" = some "cpu" ∧
    cfgGet defaultConfig "DEVICE" = some "cuda" := by
  decide

/-- **C5 amended.**  `load` never fails the caller and every recognized
key is bound in the returned configuration (to its built-in default when
the file did not supply it); the default configuration file is written
exactly when the file was absent or malformed; when the file is absent the
call proceeds with exactly the built-in defaults, while for a malformed
file it proceeds with the built-in defaults overridden by the entries
parsed before the read error. -/
theorem loadConfig_total (file : ConfigFile) (k : String)
    (hk : k ∈ recognizedKeys) :
    (cfgGet (loadConfig file).1 k).isSome ∧
    (loadConfig ConfigFile.absent).1 = defaultConfig ∧
    ((loadConfig file).2 = true ↔
      file = ConfigFile.absent ∨ ∃ ls, file = ConfigFile.corrupt ls) := by
  refine ⟨?_, rfl, ?_⟩
  · cases file with
    | absent => exact defaultConfig_has_recognized k hk
    | readable ls => exact cfgGet_foldl_isSome _ _ _ (defaultConfig_has_recognized k hk)
    | corrupt ls => exact cfgGet_foldl_isSome _ _ _ (defaultConfig_has_recognized k hk)
  · cases file with
    | absent => simp [loadConfig]
    | readable ls => simp [loadConfig]
    | corrupt ls => exact iff_of_true rfl (Or.inr ⟨ls, rfl⟩)

/-- Witness for C5: the theorem applied to a file missing every key. -/
theorem loadConfig_total_witness :
    "DEVICE" ∈ recognizedKeys ∧
    (cfgGet (loadConfig (ConfigFile.readable [])).1 "DEVICE").isSome :=
  ⟨by decide, (loadConfig_total (ConfigFile.readable []) "DEVICE" (by decide)).1⟩

/-! ## Claims C6 and C7 — readiness checker -/

/-- The boolean returned by `check_system` is the conjunction of the
Docker probe, the image probe, the credential check and the cache write
probe; the GPU and ffprobe probes do not influence it. -/
theorem checkSystem_ready_eq (cfg : Config) (p : SysProbe) :
    (checkSystem cfg p).ready =
      (p.dockerOk && p.imageOk && !tokenBlocked cfg && p.cacheWritable) := by
  simp only [checkSystem]
  cases hd : p.dockerOk <;> cases hi : p.imageOk <;>
    cases ht : tokenBlocked cfg <;> cases hc : p.cacheWritable <;>
      simp [hd, hi, ht, hc]

/-- After a `check_system` call that got past the Docker probe,
`config['DEVICE']` has been downgraded to `cpu` exactly when GPU use was
requested and the GPU probe failed. -/
theorem checkSystem_device_eq (cfg : Config) (p : SysProbe)
    (h : p.dockerOk = true) :
    (checkSystem cfg p).device =
      (if (cfgGet cfg "DEVICE" == some "cuda") && !p.gpuOk then "cpu"
       else cfgGetD cfg "DEVICE" "") := by
  simp only [checkSystem, h]
  cases hg : (cfgGet cfg "DEVICE" == some "cuda") && !p.gpuOk <;>
    cases hi : p.imageOk <;> cases ht : tokenBlocked cfg <;>
      cases hc : p.cacheWritable <;> simp [hg, hi, ht, hc]

/-- **C6.**  With diarization enabled and the stripped credential token
empty or equal to the placeholder `"your_token_here"`, `check_system`
returns `False` for every combination of probe outcomes — in particular
when every other check passes. -/
theorem credential_missing_hard_failure (cfg : Config) (p : SysProbe)
    (hdiar : lowerStr (cfgGetD cfg "ENABLE_DIARIZATION" "true") = "true")
    (htok : pyStrip (cfgGetD cfg "HF_TOKEN" "") = "" ∨
      pyStrip (cfgGetD cfg "HF_TOKEN" "") = "your_token_here") :
    (checkSystem cfg p).ready = false := by
  have hb : tokenBlocked cfg = true := by
    unfold tokenBlocked
    rcases htok with h|h <;> simp [hdiar, h]
  rw [checkSystem_ready_eq, hb]
  simp

/-- Witness for C6: the default configuration (diarization on, empty
token) with every probe passing. -/
theorem credential_missing_hard_failure_witness :
    (checkSystem defaultConfig ⟨true, true, true, true, true⟩).ready = false :=
  credential_missing_hard_failure defaultConfig ⟨true, true, true, true, true⟩
    (by decide) (Or.inl (by decide))

/-- **C7.**  When GPU acceleration is requested (`DEVICE = cuda`), the
Docker probe passed and the GPU probe fails, `check_system` downgrades
the device setting to `cpu`, and its boolean outcome agrees with the run
in which the GPU probe gave any other answer (readiness is unaffected by
the failed GPU probe). -/
theorem gpu_probe_failure_downgrades (cfg : Config) (p : SysProbe)
    (hdev : cfgGet cfg "DEVICE" = some "cuda")
    (hdocker : p.dockerOk = true)
    (hgpu : p.gpuOk = false) :
    (checkSystem cfg p).device = "cpu" ∧
    ∀ q : SysProbe, q.dockerOk = p.dockerOk → q.imageOk = p.imageOk →
      q.cacheWritable = p.cacheWritable →
      (checkSystem cfg q).ready = (checkSystem cfg p).ready := by
  constructor
  · rw [checkSystem_device_eq cfg p hdocker]
    simp [hdev, hgpu]
  · intro q h1 h2 h3
    rw [checkSystem_ready_eq, checkSystem_ready_eq, h1, h2, h3]

/-- Witness for C7: default configuration (`DEVICE = cuda`), all probes
passing except the GPU probe. -/
theorem gpu_probe_failure_downgrades_witness :
    (checkSystem defaultConfig ⟨true, false, true, true, true⟩).device = "cpu" ∧
    (checkSystem defaultConfig ⟨true, true, true, true, true⟩).ready =
      (checkSystem defaultConfig ⟨true, false, true, true, true⟩).ready :=
  have h := gpu_probe_failure_downgrades defaultConfig
    ⟨true, false, true, true, true⟩ (by decide) rfl rfl
  ⟨h.1, h.2 ⟨true, true, true, true, true⟩ rfl rfl rfl⟩

/-! ## Claim C2 — timeout on a hung worker -/

/-- **C2 counterexample.**  The claim states that for a worker that never
exits, the Job Runner with a configured timeout `T` terminates within `T`
plus bounded overhead.  `process_file` accepts no timeout and its
supervision loop has no timeout check: for the worker whose poll never
reports an exit, the loop has not completed after *any* number of polling
iterations, so it does not terminate within any bound. -/
theorem supervise_hung_worker_cex :
    ¬ ∃ fuel, (superviseSteps (fun _ => none) fuel 0).isSome := by
  have key : ∀ fuel i, superviseSteps (fun _ => none) fuel i = none := by
    intro fuel
    induction fuel with
    | zero => intro i; rfl
    | succ n ih => intro i; simpa [superviseSteps] using ih (i + 1)
  rintro ⟨fuel, h⟩
  rw [key fuel 0] at h
  simp at h

/-- **C2 amended.**  `process_file` configures no timeout: for every
worker whose poll never reports an exit, the supervision loop is still
waiting after every finite number of polling iterations, from any
starting iteration — the orchestrator waits unboundedly on a hung worker
and never produces a timeout failure. -/
theorem supervise_hung_worker_unbounded (poll : Nat → Option Int)
    (h : ∀ n, poll n = none) (fuel i : Nat) :
    superviseSteps poll fuel i = none := by
  induction fuel generalizing i with
  | zero => rfl
  | succ n ih => simpa [superviseSteps, h i] using ih (i + 1)

/-- Witness for C2 amended: the never-exiting worker, five iterations. -/
theorem supervise_hung_worker_unbounded_witness :
    superviseSteps (fun _ => none) 5 0 = none :=
  supervise_hung_worker_unbounded (fun _ => none) (fun _ => rfl) 5 0

/-! ## Claim C3 — batch aggregation -/

/-- The batch loop started from counters `(t, s, f)` adds the number of
`true` outcomes to `s` and the number of `false` outcomes to `f`, and
touches every element of the list. -/
theorem foldl_batchStep (outcomes : List Bool) : ∀ t s f : Nat,
    outcomes.foldl batchStep ⟨t, s, f⟩ =
      ⟨t, s + outcomes.count true, f + outcomes.count false⟩ := by
  induction outcomes with
  | nil => intro t s f; simp
  | cons b bs ih =>
      intro t s f
      cases b <;>
        simp [batchStep, ih, List.count_cons, BatchStats.mk.injEq] <;> omega

/-- **C3 counterexample.**  The claim quantifies over every batch of `N`
files with `0 ≤ k ≤ N` failures and asserts the returned aggregate
reports `success = N − k` and `failure = k`.  For the empty batch
(`N = 0`, `k = 0`) `process_directory` returns early after a warning,
before the counter loop and the aggregate report: no aggregate is
produced at all. -/
theorem processDirectory_empty_cex : processDirectory [] = none := rfl

/-- In a list of booleans, the `true` count and the `false` count add up
to the length. -/
theorem count_true_add_count_false (outcomes : List Bool) :
    outcomes.count true + outcomes.count false = outcomes.length := by
  induction outcomes with
  | nil => rfl
  | cons b bs ih => cases b <;> simp [List.count_cons] <;> omega

/-- **C3 amended.**  For every non-empty batch, `process_directory`
iterates over all files with no early termination and reports an
aggregate with `total = N`, `success = N − k` and `failed = k`, where `k`
is the number of failing files; in particular `success + failed = N`. -/
theorem processDirectory_counts (outcomes : List Bool)
    (h : outcomes ≠ []) :
    processDirectory outcomes =
      some ⟨outcomes.length, outcomes.length - outcomes.count false,
            outcomes.count false⟩ ∧
    (outcomes.length - outcomes.count false) + outcomes.count false =
      outcomes.length := by
  have hlen := count_true_add_count_false outcomes
  constructor
  · unfold processDirectory
    rw [if_neg (by simpa using h), foldl_batchStep]
    have : outcomes.count true = outcomes.length - outcomes.count false := by
      omega
    simp [this]
  · omega

/-- Witness for C3 amended: a batch of three files of which one fails. -/
theorem processDirectory_counts_witness :
    processDirectory [true, false, true] = some ⟨3, 2, 1⟩ :=
  (processDirectory_counts [true, false, true] (by decide)).1

/-! ## Claim C4 — launch failure vs runtime failure -/

/-- **C4 counterexample.**  The claim states that a failure to start the
worker yields a result whose error kind is distinct from that of a worker
that ran and exited non-zero.  `process_file` returns a bare boolean: a
launch failure and a non-zero exit produce the *same* value `False`, so
no caller can distinguish them by inspecting the result alone. -/
theorem launch_vs_runtime_same_result_cex :
    processFileResult WorkerRun.launchFailure =
      processFileResult (WorkerRun.exited 1) := rfl

/-- **C4 amended.**  `process_file`'s result carries no error kind: it is
`True` exactly for a zero worker exit, and `False` both for a launch
failure and for every non-zero exit — the launch/runtime distinction
appears only in the log, not in the returned value. -/
theorem processFileResult_no_error_kind (r : WorkerRun) :
    (processFileResult r = true ↔ r = WorkerRun.exited 0) ∧
    processFileResult WorkerRun.launchFailure = false ∧
    (∀ c : Int, c ≠ 0 → processFileResult (WorkerRun.exited c) = false) := by
  refine ⟨?_, rfl, ?_⟩
  · cases r with
    | launchFailure => simp [processFileResult]
    | exited c => simp [processFileResult]
  · intro c hc
    simp [processFileResult, hc]

/-- Witness for C4 amended: exit code 2 and exit code 0. -/
theorem processFileResult_no_error_kind_witness :
    processFileResult (WorkerRun.exited 2) = false ∧
    processFileResult (WorkerRun.exited 0) = true :=
  ⟨(processFileResult_no_error_kind (WorkerRun.exited 2)).2.2 2 (by decide),
   (processFileResult_no_error_kind (WorkerRun.exited 0)).1.mpr rfl⟩

/-! ## Claim C8 — CLI exit status -/

/-- **C8 counterexample.**  The claim states that every run in which the
readiness check fails — including a run invoked in check-only mode —
exits with a non-zero status.  In check-only mode `main` calls
`check_system`, discards its boolean result and returns: the process
exits with status 0 even though readiness failed. -/
theorem check_mode_failure_exit_zero_cex :
    cliExitCode ⟨none, none, true⟩ false true RunDisposition.normal = 0 := rfl

/-- **C8 amended.**  Outside check-only mode, a readiness failure exits
with status 1, an unhandled error exits 1, a missing `--file` target
exits 1, and user interruption exits 130 — distinct from 0 and from the
generic error status; in check-only mode, however, the driver exits 0
regardless of the readiness outcome. -/
theorem cliExitCode_policy (args : CliArgs) (checkOk fileFound : Bool) :
    cliExitCode args checkOk fileFound RunDisposition.interrupted = 130 ∧
    cliExitCode args checkOk fileFound RunDisposition.crashed = 1 ∧
    cliExitCode args checkOk fileFound RunDisposition.interrupted ≠ 0 ∧
    cliExitCode args checkOk fileFound RunDisposition.interrupted ≠
      cliExitCode args checkOk fileFound RunDisposition.crashed ∧
    (args.check = true →
      cliExitCode args checkOk fileFound RunDisposition.normal = 0) ∧
    (args.check = false → checkOk = false →
      cliExitCode args checkOk fileFound RunDisposition.normal = 1) ∧
    (args.check = false → checkOk = true → args.file = none →
      cliExitCode args checkOk fileFound RunDisposition.normal = 0) ∧
    (∀ g, args.check = false → checkOk = true → args.file = some g →
      fileFound = false →
      cliExitCode args checkOk fileFound RunDisposition.normal = 1) := by
  refine ⟨rfl, rfl, by show (130 : Nat) ≠ 0; decide,
    by show (130 : Nat) ≠ 1; decide, ?_, ?_, ?_, ?_⟩
  · intro h; simp [cliExitCode, h]
  · intro h1 h2; simp [cliExitCode, h1, h2]
  · intro h1 h2 h3; simp [cliExitCode, h1, h2, h3]
  · intro g h1 h2 h3 h4; simp [cliExitCode, h1, h2, h3, h4]

/-- Witness for C8 amended: a processing run with failing readiness exits
1; the same run with readiness passing exits 0. -/
theorem cliExitCode_policy_witness :
    cliExitCode ⟨none, none, false⟩ false true RunDisposition.normal = 1 ∧
    cliExitCode ⟨none, none, false⟩ true true RunDisposition.normal = 0 :=
  ⟨(cliExitCode_policy ⟨none, none, false⟩ false true).2.2.2.2.2.1 rfl rfl,
   (cliExitCode_policy ⟨none, none, false⟩ true true).2.2.2.2.2.2.1 rfl rfl rfl⟩

/-! ## Claim C9 — worker argument list -/

/-- The boolean guard of the speaker-flag loop holds exactly when the
value is a non-empty all-digit string with positive integer value. -/
theorem speakerCond_iff (s : String) :
    (s != "" && s.toList.all Char.isDigit && decide (0 < decNat s.toList)) = true ↔
      (s ≠ "" ∧ (∀ c ∈ s.toList, c.isDigit) ∧ 0 < decNat s.toList) := by
  simp [List.all_eq_true, and_assoc]

/-- The boolean guard of the diarization block holds exactly when
diarization is requested and a non-placeholder credential is present. -/
theorem diarCond_iff (cfg : Config) :
    (lowerStr (cfgGetD cfg "ENABLE_DIARIZATION" "true") == "true" &&
      hfTokenOf cfg != "" && hfTokenOf cfg != "your_token_here") = true ↔
      (diarRequested cfg ∧ credentialPresent cfg) := by
  simp [diarRequested, credentialPresent, and_assoc]

/-- **C9.**  The worker argument list is a function of the configuration
and the job (determinism); the diarization-enabling flag and the
credential flag are emitted exactly when diarization is requested and a
non-placeholder credential is present; each speaker flag is emitted
exactly when its configured value is a string denoting a positive
integer, and an emitted speaker flag is exactly `[flag, value]`. -/
theorem whisperArgs_flag_conditions (cfg : Config) (f : String) :
    whisperArgs cfg f = baseArgs cfg ++ diarExtension cfg ++ ["/audio/" ++ f] ∧
    (diarExtension cfg ≠ [] ↔ diarRequested cfg ∧ credentialPresent cfg) ∧
    (diarRequested cfg → credentialPresent cfg →
      diarExtension cfg =
        ["--diarize", "--hf_token", hfTokenOf cfg]
          ++ speakerFlag (cfgGet cfg "MIN_SPEAKERS") "--min_speakers"
          ++ speakerFlag (cfgGet cfg "MAX_SPEAKERS") "--max_speakers") ∧
    (∀ (v : Option String) (flag : String),
      speakerFlag v flag ≠ [] ↔ denotesPosInt v) ∧
    (∀ (v : Option String) (flag : String),
      speakerFlag v flag = [] ∨ ∃ s, v = some s ∧ speakerFlag v flag = [flag, s]) := by
  refine ⟨rfl, ?_, ?_, ?_, ?_⟩
  · unfold diarExtension
    by_cases hc : diarRequested cfg ∧ credentialPresent cfg
    · rw [if_pos ((diarCond_iff cfg).2 hc)]
      exact iff_of_true (by simp) hc
    · rw [if_neg (fun h => hc ((diarCond_iff cfg).1 h))]
      exact iff_of_false (by simp) hc
  · intro h1 h2
    unfold diarExtension
    rw [if_pos ((diarCond_iff cfg).2 ⟨h1, h2⟩)]
  · intro v flag
    cases v with
    | none => simp [speakerFlag, denotesPosInt]
    | some s =>
        constructor
        · intro hne
          simp only [speakerFlag] at hne
          by_cases hcond :
              (s != "" && s.toList.all Char.isDigit &&
                decide (0 < decNat s.toList)) = true
          · exact ⟨s, rfl, (speakerCond_iff s).1 hcond⟩
          · rw [if_neg hcond] at hne
            exact absurd rfl hne
        · rintro ⟨s', hs', hprops⟩
          obtain rfl : s = s' := by injection hs'
          simp only [speakerFlag]
          rw [if_pos ((speakerCond_iff s).2 hprops)]
          simp
  · intro v flag
    cases v with
    | none => exact Or.inl rfl
    | some s =>
        simp only [speakerFlag]
        split
        · exact Or.inr ⟨s, rfl, rfl⟩
        · exact Or.inl rfl

/-- Witness for C9: a configuration with diarization enabled, a real
token, and `MIN_SPEAKERS = 2`. -/
theorem whisperArgs_flag_conditions_witness :
    diarExtension exampleDiarConfig ≠ [] ∧
    speakerFlag (some "2") "--min_speakers" ≠ [] := by
  refine ⟨?_, ?_⟩
  · exact (whisperArgs_flag_conditions exampleDiarConfig "a.mp3").2.1.mpr
      ⟨by unfold diarRequested; decide,
       by unfold credentialPresent hfTokenOf; exact ⟨by decide, by decide⟩⟩
  · exact ((whisperArgs_flag_conditions exampleDiarConfig "a.mp3").2.2.2.1
      (some "2") "--min_speakers").mpr ⟨"2", rfl, by decide, by decide, by decide⟩

/-! ## Claim C10 — duration probe totality and division safety -/

/-- **C10.**  The duration probe returns the absent value on every
failure path — tool absent, probe command failed or timed out, output
unparsable — instead of raising; and the speed factor is computed only
when a duration was obtained and the processing time is strictly
positive, so its division never has a zero divisor, and a missing
duration merely skips the computation. -/
theorem duration_probe_safe (p : DurationProbe) (dur : Option ℚ) (t : ℚ) :
    (p.ffprobeOnPath = false → getAudioDuration p = none) ∧
    (p.runOutput = none → getAudioDuration p = none) ∧
    (∀ out, p.runOutput = some out → pyFloat (pyStrip out) = none →
      getAudioDuration p = none) ∧
    ((speedFactor dur t).isSome → dur.isSome ∧ 0 < t ∧ t ≠ 0) ∧
    speedFactor none t = none := by
  refine ⟨?_, ?_, ?_, ?_, rfl⟩
  · intro h; simp [getAudioDuration, h]
  · intro h
    cases hff : p.ffprobeOnPath <;> simp [getAudioDuration, hff, h]
  · intro out hout hparse
    cases hff : p.ffprobeOnPath <;> simp [getAudioDuration, hff, hout, hparse]
  · intro h
    cases dur with
    | none => simp [speedFactor] at h
    | some d =>
        simp only [speedFactor] at h
        by_cases hc : d ≠ 0 ∧ 0 < t
        · exact ⟨rfl, hc.2, hc.2.ne'⟩
        · rw [if_neg hc] at h
          simp at h

/-- Witness for C10: an environment without `ffprobe`, and a concrete
speed-factor computation with duration 5 s and processing time 2 s. -/
theorem duration_probe_safe_witness :
    getAudioDuration ⟨false, none⟩ = none ∧
    ((some (5 : ℚ)).isSome ∧ (0 : ℚ) < 2 ∧ (2 : ℚ) ≠ 0) :=
  ⟨(duration_probe_safe ⟨false, none⟩ (some 5) 2).1 rfl,
   (duration_probe_safe ⟨false, none⟩ (some 5) 2).2.2.2.1 (by decide)⟩

end WhisperX
